import Mathlib

/-!
Shallow embedding of the `custom-mcp-to-dbx` news-feed server.

The repository consists of five near-identical source modules
(`hackernews.py`, `techcrunch.py`, `ainews.py`, `wsj.py`, `wired.py`)
each with a fetch/parse/format trio, plus `app.py` with the tool
functions that chain them.  The embedding below models:

* Python dictionaries used as story records (`Story`, a key/value
  association list in insertion order, with `Val` covering the value
  types that actually occur: strings, `None`, lists of strings, and
  lists of Twitter-recap items);
* parsed XML documents as a tree of elements (`Element`), with the
  `xml.etree.ElementTree` lookup operations the code uses
  (`find`/`findall` on a direct tag, on a `.//tag` descendant path and
  on a `*//tag` path, attribute lookup with and without default);
* the outcome of `ET.fromstring` as `XmlInput`: either a well-formed
  tree or a parse failure carrying the diagnostic string of the raised
  `ParseError`;
* the outcome of the `httpx` network call as `FetchOutcome`, with the
  `httpx` exception hierarchy relevant to the `except` clauses
  (`httpx.TimeoutException` is a subclass of `httpx.TransportError`,
  itself a subclass of `httpx.RequestError`, itself a subclass of
  `httpx.HTTPError`, so `isHTTPError` holds of a timeout).

Machine-level caveats: ElementTree tag names carry namespaces in the
`{uri}local` form; those brace characters are written `\x7b`/`\x7d` in
string literals below.
-/

/-- A Twitter-recap entry produced by `ainews.extract_twitter_recap`:
in the source it is the dict `{"title": ..., "description": ..., "link": ...}`. -/
structure RecapItem where
  title : String
  description : String
  link : String
deriving DecidableEq

/-- A Python value stored in a story dict.  The parsers store strings,
`None` (a raw `el.text` of an element with no text), lists of strings
(categories) and lists of recap items. -/
inductive Val where
  | s (v : String)
  | pynone
  | list (v : List String)
  | recap (v : List RecapItem)
deriving DecidableEq

/-- A story record: a Python dict in insertion order.  All dicts built by
this code have distinct keys, so an association list is a faithful model. -/
abbrev Story := List (String × Val)

/-- Python `"k" in story`. -/
def Story.hasKey (st : Story) (k : String) : Bool :=
  (st.lookup k).isSome

/-- Python `story[k]` (dict indexing).  Every caller in the source checks
`k in story` first, so the `none` fallback is unreachable. -/
def Story.item (st : Story) (k : String) : Val :=
  (st.lookup k).getD (Val.s "")

/-- Python `story.get(k, d)`: the stored value (even `None`) when the key
is present, else the default. -/
def Story.getVal (st : Story) (k : String) (d : Val) : Val :=
  (st.lookup k).getD d

/-- Python `str()` of a list of strings, e.g. `['a', 'b']` (quote written
`\x27`).  Only used when such a value is interpolated into an f-string,
which never happens on the code paths embedded here. -/
def reprStrList (v : List String) : String :=
  "[" ++ String.intercalate ", " (v.map (fun x => "\x27" ++ x ++ "\x27")) ++ "]"

/-- Python `str()` of a recap item (a dict of three strings). -/
def reprRecapItem (r : RecapItem) : String :=
  "\x7b\x27title\x27: \x27" ++ r.title ++ "\x27, \x27description\x27: \x27" ++
    r.description ++ "\x27, \x27link\x27: \x27" ++ r.link ++ "\x27\x7d"

/-- Python `str()` / f-string interpolation of a stored value.  In the
embedded formatters only the `s` and `pynone` cases are reachable. -/
def pyStr : Val → String
  | .s v => v
  | .pynone => "None"
  | .list v => reprStrList v
  | .recap v => "[" ++ String.intercalate ", " (v.map reprRecapItem) ++ "]"

/-- Python truthiness of a stored value (`if author:`, `if categories:`). -/
def Val.truthy : Val → Bool
  | .s v => v != ""
  | .pynone => false
  | .list v => !v.isEmpty
  | .recap v => !v.isEmpty

/-- Python `story.get(k, [])` where the caller treats the result as a list
of strings.  The stored value is always a `Val.list` when present. -/
def Story.getList (st : Story) (k : String) : List String :=
  match st.lookup k with
  | some (Val.list v) => v
  | some _ => []
  | none => []

/-- Python `story.get(k, [])` where the caller treats the result as the
recap-item list.  The stored value is always a `Val.recap` when present. -/
def Story.getRecap (st : Story) (k : String) : List RecapItem :=
  match st.lookup k with
  | some (Val.recap v) => v
  | some _ => []
  | none => []

/-- A parsed XML element, as exposed by `xml.etree.ElementTree`: a tag
(namespaced tags appear in the `\x7buri\x7dlocal` form), an attribute
dict, the text directly inside the element (`None` when absent) and the
child elements in document order. -/
inductive Element where
  | mk (tag : String) (attrib : List (String × String)) (text : Option String)
      (children : List Element)

def Element.tag : Element → String
  | .mk t _ _ _ => t

def Element.attrib : Element → List (String × String)
  | .mk _ a _ _ => a

def Element.text : Element → Option String
  | .mk _ _ x _ => x

def Element.children : Element → List Element
  | .mk _ _ _ cs => cs

/-- Pre-order (document-order) listing of a forest together with all
nested elements; `descList [e, ...]` lists `e`, then `e`'s subtree, then
the rest. -/
def descList : List Element → List Element
  | [] => []
  | Element.mk t a x cs :: rest => Element.mk t a x cs :: (descList cs ++ descList rest)

/-- All strict descendants of an element in document order — the elements
enumerated by an ElementTree `.//` path. -/
def Element.descendants (e : Element) : List Element :=
  descList e.children

/-- ElementTree `element.find(tag)` for a plain or `\x7buri\x7dlocal` tag:
first direct child with that tag, or `None`. -/
def Element.findChild (e : Element) (t : String) : Option Element :=
  e.children.find? (fun c => c.tag == t)

/-- ElementTree `element.findall(tag)`: all direct children with the tag,
in document order. -/
def Element.findAllChild (e : Element) (t : String) : List Element :=
  e.children.filter (fun c => c.tag == t)

/-- ElementTree `element.find(".//tag")`: first descendant (any depth)
with the tag, in document order. -/
def Element.findDesc (e : Element) (t : String) : Option Element :=
  e.descendants.find? (fun c => c.tag == t)

/-- ElementTree `element.findall(".//tag")`: all descendants with the tag. -/
def Element.findAllDesc (e : Element) (t : String) : List Element :=
  e.descendants.filter (fun c => c.tag == t)

/-- ElementTree `element.find("*//tag")`: first element with the tag that
is a strict descendant of some direct child (depth at least two). -/
def Element.findChildDesc (e : Element) (t : String) : Option Element :=
  (e.children.flatMap Element.descendants).find? (fun c => c.tag == t)

/-- Python `"k" in el.attrib` / `el.attrib["k"]` combined: the attribute
value when present. -/
def Element.attrGet (e : Element) (k : String) : Option String :=
  e.attrib.lookup k

/-- Python `el.attrib.get(k, d)`. -/
def Element.attrGetD (e : Element) (k d : String) : String :=
  (e.attrib.lookup k).getD d

/-- Outcome of `ET.fromstring(rss_content)`: either the parsed tree, or a
raised `xml.etree.ElementTree.ParseError` whose `str()` is `diag`
(e.g. `"syntax error: line 1, column 0"`). -/
inductive XmlInput where
  | malformed (diag : String)
  | wellFormed (root : Element)

/-- Python expression `el.text if el is not None else dflt` as used by the
Hacker News and AI-news parsers: the raw text (possibly `None`) of the
element when found, else the given default. -/
def optElemTextVal (o : Option Element) (dflt : Val) : Val :=
  match o with
  | some el =>
    match el.text with
    | some t => Val.s t
    | none => Val.pynone
  | none => dflt

/-- An exception raised by the `httpx` GET (or `raise_for_status`).  Per
the `httpx` class hierarchy, `TimeoutException` is a subclass of
`TransportError`, which is a subclass of `RequestError`, which is a
subclass of `HTTPError`; `HTTPStatusError` is also a subclass of
`HTTPError`.  `other` stands for any exception outside that hierarchy. -/
inductive HttpxExc where
  | timeout (msg : String)
  | httpError (msg : String)
  | other (msg : String)

/-- Python `isinstance(e, httpx.HTTPError)`: true of timeouts as well. -/
def HttpxExc.isHTTPError : HttpxExc → Bool
  | .timeout _ => true
  | .httpError _ => true
  | .other _ => false

/-- Python `isinstance(e, httpx.TimeoutException)`. -/
def HttpxExc.isTimeoutExc : HttpxExc → Bool
  | .timeout _ => true
  | _ => false

/-- Python `str(e)` of the exception. -/
def HttpxExc.msg : HttpxExc → String
  | .timeout m => m
  | .httpError m => m
  | .other m => m

/-- Outcome of the awaited `client.get(...)` followed by
`response.raise_for_status()`: either the response text, or an exception. -/
inductive FetchOutcome where
  | ok (body : String)
  | raises (e : HttpxExc)

namespace hackernews

def DEFAULT_HN_RSS_URL : String := "https://news.ycombinator.com/rss"

def USER_AGENT : String := "hackernews-reader/1.0"

/-- Source: `hackernews.py`, `fetch_hn_rss`.  The `except` clauses are
tried in source order: `httpx.HTTPError` first, then
`httpx.TimeoutException`, then `Exception`. -/
def fetch_hn_rss (feed_url : String) (outcome : FetchOutcome) : String :=
  match outcome with
  | .ok body => body
  | .raises e =>
    if e.isHTTPError then "HTTP Error fetching RSS: " ++ e.msg
    else if e.isTimeoutExc then "Timeout fetching RSS from " ++ feed_url
    else "Error fetching RSS: " ++ e.msg

/-- Body of the `for item in items` loop of `parse_hn_rss`: each field is
`item.find(tag).text if item.find(tag) is not None else default`. -/
def hnItemStory (item : Element) : Story :=
  [("title", optElemTextVal (item.findChild "title") (Val.s "No title")),
   ("link", optElemTextVal (item.findChild "link") (Val.s "")),
   ("description", optElemTextVal (item.findChild "description") (Val.s "No description")),
   ("pubDate", optElemTextVal (item.findChild "pubDate") (Val.s ""))]

/-- Source: `hackernews.py`, `parse_hn_rss`.  Only a generic
`except Exception` handler exists, so a `ParseError` from
`ET.fromstring` is stringified after the prefix `"Error parsing RSS: "`.
On a well-formed tree nothing in the loop can raise. -/
def parse_hn_rss (x : XmlInput) : List Story :=
  match x with
  | .malformed diag => [[("error", Val.s ("Error parsing RSS: " ++ diag))]]
  | .wellFormed root => (root.findAllDesc "item").map hnItemStory

/-- Source: `hackernews.py`, `format_hn_story`.  There is no error-record
branch; the triple-quoted f-string renders `story.get(...)` defaults. -/
def format_hn_story (story : Story) : String :=
  "\nTitle: " ++ pyStr (story.getVal "title" (Val.s "Unknown")) ++
  "\nLink: " ++ pyStr (story.getVal "link" (Val.s "No link")) ++
  "\nPublished: " ++ pyStr (story.getVal "pubDate" (Val.s "Unknown")) ++ "\n"

end hackernews

namespace techcrunch

def DEFAULT_TC_RSS_URL : String := "https://techcrunch.com/feed/"

def USER_AGENT : String := "techcrunch-reader/1.0"

/-- Source: `techcrunch.py`, `fetch_tc_rss` (same clause order as the
other fetchers). -/
def fetch_tc_rss (feed_url : String) (outcome : FetchOutcome) : String :=
  match outcome with
  | .ok body => body
  | .raises e =>
    if e.isHTTPError then "HTTP Error fetching RSS: " ++ e.msg
    else if e.isTimeoutExc then "Timeout fetching RSS from " ++ feed_url
    else "Error fetching RSS: " ++ e.msg

/-- Source: `techcrunch.py`, `get_element_text`: text of the first direct
child with the tag when found and truthy, else the default. -/
def get_element_text (element : Element) (tag dflt : String) : String :=
  match element.findChild tag with
  | some el =>
    match el.text with
    | some t => if t == "" then dflt else t
    | none => dflt
  | none => dflt

/-- Body of the `for item in items` loop of `parse_tc_rss`, keys in
insertion order. -/
def tcItemStory (item : Element) : Story :=
  let author :=
    match item.findDesc "\x7bhttp://purl.org/dc/elements/1.1/\x7dcreator" with
    | some a =>
      match a.text with
      | some t => if t == "" then "" else t
      | none => ""
    | none => ""
  let guidPair :=
    match item.findChild "guid" with
    | some g => (g.text.getD "", g.attrGetD "isPermaLink" "false")
    | none => ("", "false")
  let cats := item.findAllChild "category"
  let catsVal :=
    if cats.isEmpty then []
    else cats.filterMap (fun c =>
      match c.text with
      | some t => if t == "" then none else some t
      | none => none)
  [("title", Val.s (get_element_text item "title" "No title")),
   ("link", Val.s (get_element_text item "link" "")),
   ("pubDate", Val.s (get_element_text item "pubDate" "")),
   ("description", Val.s (get_element_text item "description" "No description")),
   ("author", Val.s author),
   ("guid", Val.s guidPair.1),
   ("guid_permalink", Val.s guidPair.2),
   ("categories", Val.list catsVal)]

/-- Source: `techcrunch.py`, `parse_tc_rss`: a `ParseError` is caught
first (`"Error parsing XML: ..."`); a missing direct `channel` child
yields the single invalid-format error record; otherwise the items of the
channel are mapped in document order. -/
def parse_tc_rss (x : XmlInput) : List Story :=
  match x with
  | .malformed diag => [[("error", Val.s ("Error parsing XML: " ++ diag))]]
  | .wellFormed root =>
    match root.findChild "channel" with
    | none => [[("error", Val.s "Invalid RSS format: No channel element found")]]
    | some channel => (channel.findAllChild "item").map tcItemStory

/-- Source: `techcrunch.py`, `format_tc_story`. -/
def format_tc_story (story : Story) : String :=
  if story.hasKey "error" then "ERROR: " ++ pyStr (story.item "error")
  else
    let title := story.getVal "title" (Val.s "Unknown Title")
    let link := story.getVal "link" (Val.s "No link available")
    let pub_date := story.getVal "pubDate" (Val.s "Unknown publication date")
    let description := story.getVal "description" (Val.s "No description available")
    let author := story.getVal "author" (Val.s "")
    let categories := story.getList "categories"
    let formatted := "\nTitle: " ++ pyStr title ++ "\nLink: " ++ pyStr link
    let formatted := if author.truthy then formatted ++ "\nAuthor: " ++ pyStr author else formatted
    let formatted := formatted ++ "\nPublished: " ++ pyStr pub_date
    let formatted :=
      if !categories.isEmpty then
        formatted ++ "\nCategories: " ++ String.intercalate ", " categories
      else formatted
    formatted ++ "\n\n" ++ pyStr description ++ "\n"

end techcrunch

namespace wsj

def DEFAULT_WSJ_RSS_URL : String := "https://feeds.content.dowjones.io/public/rss/RSSWSJD"

def USER_AGENT : String := "wsj-reader/1.0"

/-- Source: `wsj.py`, `fetch_wsj_rss` (same clause order as the other
fetchers). -/
def fetch_wsj_rss (feed_url : String) (outcome : FetchOutcome) : String :=
  match outcome with
  | .ok body => body
  | .raises e =>
    if e.isHTTPError then "HTTP Error fetching RSS: " ++ e.msg
    else if e.isTimeoutExc then "Timeout fetching RSS from " ++ feed_url
    else "Error fetching RSS: " ++ e.msg

/-- Source: `wsj.py`, `get_element_text`: direct-child lookup first; when
missing, the Dublin Core descendant path for the tag `creator` and the
`*//tag` path otherwise; text is returned only when truthy. -/
def get_element_text (element : Element) (tag dflt : String) : String :=
  let el :=
    match element.findChild tag with
    | some e => some e
    | none =>
      if tag == "creator" then
        element.findDesc "\x7bhttp://purl.org/dc/elements/1.1/\x7dcreator"
      else element.findChildDesc tag
  match el with
  | some e =>
    match e.text with
    | some t => if t == "" then dflt else t
    | none => dflt
  | none => dflt

/-- Source: `wsj.py`, `extract_image_url`: Media RSS `content` (descendant
path) with a `url` attribute first, then Media RSS `thumbnail`, then a
plain direct `enclosure` child; otherwise the empty string.  Each
`Option.bind` merges the two ways a candidate can fail in the source
(`is None`, or no `"url" in attrib`). -/
def extract_image_url (item : Element) : String :=
  match (item.findDesc "\x7bhttp://search.yahoo.com/mrss/\x7dcontent").bind
      (fun e => e.attrGet "url") with
  | some u => u
  | none =>
    match (item.findDesc "\x7bhttp://search.yahoo.com/mrss/\x7dthumbnail").bind
        (fun e => e.attrGet "url") with
    | some u => u
    | none =>
      match (item.findChild "enclosure").bind (fun e => e.attrGet "url") with
      | some u => u
      | none => ""

/-- Body of the `for item in items` loop of `parse_wsj_rss`, keys in
insertion order. -/
def wsjItemStory (item : Element) : Story :=
  let authors := item.findAllDesc "\x7bhttp://purl.org/dc/elements/1.1/\x7dcreator"
  let author :=
    if authors.isEmpty then ""
    else String.intercalate ", " (authors.filterMap (fun a =>
      match a.text with
      | some t => if t == "" then none else some t
      | none => none))
  [("title", Val.s (get_element_text item "title" "No title")),
   ("link", Val.s (get_element_text item "link" "")),
   ("pubDate", Val.s (get_element_text item "pubDate" "")),
   ("description", Val.s (get_element_text item "description" "No description")),
   ("author", Val.s author),
   ("guid", Val.s (get_element_text item "guid" "")),
   ("category", Val.s (get_element_text item "category" "")),
   ("id", Val.s (get_element_text item "id" "")),
   ("image_url", Val.s (extract_image_url item))]

/-- Source: `wsj.py`, `parse_wsj_rss`. -/
def parse_wsj_rss (x : XmlInput) : List Story :=
  match x with
  | .malformed diag => [[("error", Val.s ("Error parsing XML: " ++ diag))]]
  | .wellFormed root =>
    match root.findChild "channel" with
    | none => [[("error", Val.s "Invalid RSS format: No channel element found")]]
    | some channel => (channel.findAllChild "item").map wsjItemStory

/-- Source: `wsj.py`, `format_wsj_story`. -/
def format_wsj_story (story : Story) : String :=
  if story.hasKey "error" then "ERROR: " ++ pyStr (story.item "error")
  else
    let title := story.getVal "title" (Val.s "Unknown Title")
    let link := story.getVal "link" (Val.s "No link available")
    let pub_date := story.getVal "pubDate" (Val.s "Unknown publication date")
    let description := story.getVal "description" (Val.s "No description available")
    let author := story.getVal "author" (Val.s "")
    let formatted := "\nTitle: " ++ pyStr title ++ "\nLink: " ++ pyStr link
    let formatted := if author.truthy then formatted ++ "\nAuthor: " ++ pyStr author else formatted
    formatted ++ "\nPublished: " ++ pyStr pub_date ++ "\n\n" ++ pyStr description ++ "\n"

end wsj

namespace wired

def DEFAULT_WIRED_RSS_URL : String := "https://www.wired.com/feed/tag/ai/latest/rss"

def USER_AGENT : String := "wired-reader/1.0"

/-- Source: `wired.py`, `fetch_wired_rss` (same clause order as the other
fetchers). -/
def fetch_wired_rss (feed_url : String) (outcome : FetchOutcome) : String :=
  match outcome with
  | .ok body => body
  | .raises e =>
    if e.isHTTPError then "HTTP Error fetching RSS: " ++ e.msg
    else if e.isTimeoutExc then "Timeout fetching RSS from " ++ feed_url
    else "Error fetching RSS: " ++ e.msg

/-- Source: `wired.py`, `get_element_text` (same as the TechCrunch one). -/
def get_element_text (element : Element) (tag dflt : String) : String :=
  match element.findChild tag with
  | some el =>
    match el.text with
    | some t => if t == "" then dflt else t
    | none => dflt
  | none => dflt

/-- Body of the `for item in items` loop of `parse_wired_rss`, keys in
insertion order. -/
def wiredItemStory (item : Element) : Story :=
  let author :=
    match item.findDesc "\x7bhttp://purl.org/dc/elements/1.1/\x7dcreator" with
    | some a =>
      match a.text with
      | some t => if t == "" then "" else t
      | none => ""
    | none => ""
  let subject :=
    match item.findDesc "\x7bhttp://purl.org/dc/elements/1.1/\x7dsubject" with
    | some a =>
      match a.text with
      | some t => if t == "" then "" else t
      | none => ""
    | none => ""
  let cats := item.findAllChild "category"
  let catsVal :=
    if cats.isEmpty then []
    else cats.filterMap (fun c =>
      match c.text with
      | some t => if t == "" then none else some t
      | none => none)
  let img :=
    match item.findDesc "\x7bhttp://search.yahoo.com/mrss/\x7dthumbnail" with
    | some th =>
      match th.attrGet "url" with
      | some u => (u, th.attrGetD "width" "", th.attrGetD "height" "")
      | none => ("", "", "")
    | none => ("", "", "")
  [("title", Val.s (get_element_text item "title" "No title")),
   ("link", Val.s (get_element_text item "link" "")),
   ("pubDate", Val.s (get_element_text item "pubDate" "")),
   ("description", Val.s (get_element_text item "description" "No description")),
   ("guid", Val.s (get_element_text item "guid" "")),
   ("author", Val.s author),
   ("subject", Val.s subject),
   ("categories", Val.list catsVal),
   ("image_url", Val.s img.1),
   ("image_width", Val.s img.2.1),
   ("image_height", Val.s img.2.2)]

/-- Source: `wired.py`, `parse_wired_rss`. -/
def parse_wired_rss (x : XmlInput) : List Story :=
  match x with
  | .malformed diag => [[("error", Val.s ("Error parsing XML: " ++ diag))]]
  | .wellFormed root =>
    match root.findChild "channel" with
    | none => [[("error", Val.s "Invalid RSS format: No channel element found")]]
    | some channel => (channel.findAllChild "item").map wiredItemStory

/-- Source: `wired.py`, `format_wired_story`. -/
def format_wired_story (story : Story) : String :=
  if story.hasKey "error" then "ERROR: " ++ pyStr (story.item "error")
  else
    let title := story.getVal "title" (Val.s "Unknown Title")
    let link := story.getVal "link" (Val.s "No link available")
    let pub_date := story.getVal "pubDate" (Val.s "Unknown publication date")
    let description := story.getVal "description" (Val.s "No description available")
    let author := story.getVal "author" (Val.s "")
    let subject := story.getVal "subject" (Val.s "")
    let categories := story.getList "categories"
    let formatted := "\nTitle: " ++ pyStr title ++ "\nLink: " ++ pyStr link
    let formatted := if author.truthy then formatted ++ "\nAuthor: " ++ pyStr author else formatted
    let formatted := if subject.truthy then formatted ++ "\nSubject: " ++ pyStr subject else formatted
    let formatted := formatted ++ "\nPublished: " ++ pyStr pub_date
    let formatted :=
      if !categories.isEmpty then
        formatted ++ "\nCategories: " ++ String.intercalate ", " categories
      else formatted
    formatted ++ "\n\n" ++ pyStr description ++ "\n"

end wired

namespace ainews

def DEFAULT_AINEWS_RSS_URL : String := "https://news.smol.ai/rss.xml"

def USER_AGENT : String := "ainews-reader/1.0"

/-- Source: `ainews.py`, `fetch_ainews_rss` (same clause order as the
other fetchers). -/
def fetch_ainews_rss (feed_url : String) (outcome : FetchOutcome) : String :=
  match outcome with
  | .ok body => body
  | .raises e =>
    if e.isHTTPError then "HTTP Error fetching RSS: " ++ e.msg
    else if e.isTimeoutExc then "Timeout fetching RSS from " ++ feed_url
    else "Error fetching RSS: " ++ e.msg

/-- Models `html.unescape` restricted to the five predefined XML/HTML
character references (`amp`, `lt`, `gt`, `quot`, `#39`); any other
ampersand is left as is.  On text containing no ampersand — the case for
every input considered in the theorems below — `html.unescape` is the
identity and so is this function. -/
def unescapeChars : List Char → List Char
  | [] => []
  | '&' :: 'a' :: 'm' :: 'p' :: ';' :: rest => '&' :: unescapeChars rest
  | '&' :: 'l' :: 't' :: ';' :: rest => '<' :: unescapeChars rest
  | '&' :: 'g' :: 't' :: ';' :: rest => '>' :: unescapeChars rest
  | '&' :: 'q' :: 'u' :: 'o' :: 't' :: ';' :: rest => '"' :: unescapeChars rest
  | '&' :: '#' :: '3' :: '9' :: ';' :: rest => '\x27' :: unescapeChars rest
  | c :: rest => c :: unescapeChars rest

/-- Splits `hay` at the first occurrence of `needle`: returns the part
before the occurrence and the part after it, or `none` when `needle` does
not occur.  This is the primitive behind the lazy (`.*?`) regex searches
of `extract_twitter_recap`. -/
def splitAtFirst (needle : List Char) : List Char → Option (List Char × List Char)
  | [] => if needle.isEmpty then some ([], []) else none
  | c :: cs =>
    if needle.isPrefixOf (c :: cs) then some ([], (c :: cs).drop needle.length)
    else
      match splitAtFirst needle cs with
      | some (pre, post) => some (c :: pre, post)
      | none => none

/-- Models `re.search(r"<h1>AI Twitter Recap</h1>(.*?)(?:<h1>|$)", content,
re.DOTALL)`: the captured group is the text after the first heading
marker, up to (excluding) the next `<h1>` or the end of the text. -/
def recapSection (content : List Char) : Option (List Char) :=
  match splitAtFirst "<h1>AI Twitter Recap</h1>".data content with
  | none => none
  | some (_, rest) =>
    match splitAtFirst "<h1>".data rest with
    | none => some rest
    | some (pre, _) => some pre

/-- Models `re.findall(r"<li>(.*?)</li>", s, re.DOTALL)`: repeatedly take
the text between the next `<li>` and the nearest following `</li>`.  The
fuel argument is the length of the text; each successful round consumes
at least the two delimiters (nine characters), so the fuel never runs
out before the match fails. -/
def liItemsGo : Nat → List Char → List (List Char)
  | 0, _ => []
  | fuel+1, s =>
    match splitAtFirst "<li>".data s with
    | none => []
    | some (_, rest) =>
      match splitAtFirst "</li>".data rest with
      | none => []
      | some (body, rest2) => body :: liItemsGo fuel rest2

def liItems (s : List Char) : List (List Char) := liItemsGo s.length s

/-- Scan for the `>` closing a tag: the shortest run of characters other
than a newline, then `>` (the lazy `<.*?>` without `re.DOTALL`).  Returns
the remainder after the `>`, or `none` when no such `>` exists. -/
def closeTag : List Char → Option (List Char)
  | [] => none
  | '>' :: cs => some cs
  | '\n' :: _ => none
  | _ :: cs => closeTag cs

/-- Models `re.sub(r"<.*?>", "", s)`: every matched tag is removed; a `<`
that opens no complete tag is kept and scanning continues after it.  The
fuel argument is the length of the text; at least one character is
consumed per round. -/
def stripTagsGo : Nat → List Char → List Char
  | 0, s => s
  | fuel+1, s =>
    match s with
    | [] => []
    | '<' :: cs =>
      match closeTag cs with
      | some rest => stripTagsGo fuel rest
      | none => '<' :: stripTagsGo fuel cs
    | c :: cs => c :: stripTagsGo fuel cs

def stripTags (s : List Char) : List Char := stripTagsGo s.length s

/-- Python `str.strip()` whitespace (ASCII part). -/
def pySpace (c : Char) : Bool :=
  c == ' ' || c == '\t' || c == '\n' || c == '\r' || c == '\x0b' || c == '\x0c'

/-- Python `str.strip()`. -/
def pyStrip (s : List Char) : List Char :=
  ((s.dropWhile pySpace).reverse.dropWhile pySpace).reverse

/-- Models `re.match(r"^(.*?):", s)` (no `re.DOTALL`): the index of the
first colon, provided no newline comes before it; group 1 is the text
before that colon. -/
def titleColonIdx : List Char → Option Nat
  | [] => none
  | ':' :: _ => some 0
  | '\n' :: _ => none
  | _ :: cs => (titleColonIdx cs).map (· + 1)

/-- Models `re.search(r"<a href=\"([^\"]+)\"", s)`: after each occurrence
of the literal `<a href="`, a non-empty run of characters up to a closing
quote is the link; on failure the search continues at the next
occurrence.  Returns `""` when there is no match, as the source does.
The fuel argument is the length of the text. -/
def findLinkGo : Nat → List Char → String
  | 0, _ => ""
  | fuel+1, s =>
    match splitAtFirst "<a href=\"".data s with
    | none => ""
    | some (_, rest) =>
      let url := rest.takeWhile (fun c => c != '"')
      if !url.isEmpty && url.length < rest.length then String.mk url
      else findLinkGo fuel rest

def findLink (s : List Char) : String := findLinkGo s.length s

/-- Source: `ainews.py`, `extract_twitter_recap`: unescape HTML entities,
slice out the section between the `AI Twitter Recap` heading and the next
heading, then turn each `<li>...</li>` fragment into a recap item — tags
stripped, the part before the first colon (trimmed) as title, the rest as
description, and the first anchor `href` of the raw fragment as link. -/
def extract_twitter_recap (content : String) : List RecapItem :=
  let content := unescapeChars content.data
  match recapSection content with
  | none => []
  | some sec =>
    (liItems sec).map (fun bullet =>
      let clean := pyStrip (stripTags bullet)
      match titleColonIdx clean with
      | some i =>
        { title := String.mk (pyStrip (clean.take i)),
          description := String.mk (pyStrip (clean.drop (i + 1))),
          link := findLink bullet }
      | none =>
        { title := String.mk clean, description := "", link := findLink bullet })

/-- Body of the `if items:` branch of `parse_ainews_rss` (only the first
item is processed), keys in insertion order. -/
def aiItemStory (item : Element) : Story :=
  let contentPart :=
    match item.findDesc "\x7bhttp://purl.org/rss/1.0/modules/content/\x7dencoded" with
    | some ce =>
      match ce.text with
      | some t =>
        if t == "" then [("content", Val.s ""), ("twitter_recap", Val.recap [])]
        else [("content", Val.s t), ("twitter_recap", Val.recap (extract_twitter_recap t))]
      | none => [("content", Val.s ""), ("twitter_recap", Val.recap [])]
    | none => [("content", Val.s ""), ("twitter_recap", Val.recap [])]
  let cats := item.findAllChild "category"
  let catsVal :=
    if cats.isEmpty then []
    else cats.filterMap (fun c =>
      match c.text with
      | some t => if t == "" then none else some t
      | none => none)
  [("title", optElemTextVal (item.findChild "title") (Val.s "No title")),
   ("link", optElemTextVal (item.findChild "link") (Val.s "")),
   ("description", optElemTextVal (item.findChild "description") (Val.s "No description")),
   ("pubDate", optElemTextVal (item.findChild "pubDate") (Val.s ""))] ++
  contentPart ++ [("categories", Val.list catsVal)]

/-- Source: `ainews.py`, `parse_ainews_rss`: only the first `.//item` is
processed; an empty feed yields the empty list. -/
def parse_ainews_rss (x : XmlInput) : List Story :=
  match x with
  | .malformed diag => [[("error", Val.s ("Error parsing XML: " ++ diag))]]
  | .wellFormed root =>
    match root.findAllDesc "item" with
    | [] => []
    | item :: _ => [aiItemStory item]

/-- Source: `ainews.py`, `format_ainews_story`. -/
def format_ainews_story (story : Story) : String :=
  if story.hasKey "error" then "ERROR: " ++ pyStr (story.item "error")
  else
    let title := story.getVal "title" (Val.s "Unknown Title")
    let link := story.getVal "link" (Val.s "No link available")
    let pub_date := story.getVal "pubDate" (Val.s "Unknown publication date")
    let description := story.getVal "description" (Val.s "No description available")
    let formatted := "\nTitle: " ++ pyStr title ++ "\nLink: " ++ pyStr link ++
      "\nDescription: " ++ pyStr description ++ "\nPublished: " ++ pyStr pub_date ++ "\n"
    let twitter_recap := story.getRecap "twitter_recap"
    let formatted :=
      if !twitter_recap.isEmpty then
        formatted ++ "\n\n" ++ String.join (twitter_recap.map (fun it =>
          "Title: " ++ it.title ++ "\nLink: " ++ it.link ++
          "\nDescription: " ++ it.description ++ "\n\n"))
      else formatted
    let categories := story.getList "categories"
    if !categories.isEmpty then
      formatted ++ "\nCategories: " ++ String.intercalate ", " categories
    else formatted

end ainews

namespace app

/-- The raw result of a fetch together with the outcome of applying
`ET.fromstring` to that string.  The tree (or parse failure) a given
string produces is fixed by the expat parser, which the embedding treats
as an oracle; concrete instances below pair each string with what expat
actually does on it (any text not starting with `<` is a parse failure
with diagnostic `"syntax error: line 1, column 0"`). -/
structure Fetched where
  text : String
  xml : XmlInput

/-- Python `s.startswith(p)`. -/
def pyStartsWith (s p : String) : Bool :=
  p.data.isPrefixOf s.data

/-- Python list slicing `l[:k]` for an `int` bound `k`: the first `k`
elements when `k` is non-negative, and all but the last `|k|` elements
when `k` is negative (clamped at an empty list). -/
def pySliceTo {α : Type} (l : List α) (k : Int) : List α :=
  if 0 ≤ k then l.take k.toNat else l.take (l.length - k.natAbs)

/-- Source: `app.py`, tool `get_hackernews_stories`.  Note the fetch-error
check is `rss_content.startswith("Error")` and there is no parse-error
check before formatting. -/
def get_hackernews_stories (fetched : Fetched) (count : Int) : String :=
  if pyStartsWith fetched.text "Error" then fetched.text
  else
    let stories := hackernews.parse_hn_rss fetched.xml
    let stories := pySliceTo stories (min count (stories.length : Int))
    if stories.isEmpty then "No stories found."
    else String.intercalate "\n---\n" (stories.map hackernews.format_hn_story)

/-- Source: `app.py`, tool `get_wallstreetjournal_stories`. -/
def get_wallstreetjournal_stories (fetched : Fetched) (count : Int) : String :=
  if pyStartsWith fetched.text "Error" then fetched.text
  else
    let stories := wsj.parse_wsj_rss fetched.xml
    if !stories.isEmpty && (stories.headD []).hasKey "error" then
      pyStr ((stories.headD []).item "error")
    else
      let stories := pySliceTo stories (min count (stories.length : Int))
      if stories.isEmpty then "No stories found."
      else String.intercalate "\n---\n" (stories.map wsj.format_wsj_story)

/-- Source: `app.py`, tool `get_techcrunch_stories`. -/
def get_techcrunch_stories (fetched : Fetched) (count : Int) : String :=
  if pyStartsWith fetched.text "Error" then fetched.text
  else
    let stories := techcrunch.parse_tc_rss fetched.xml
    if !stories.isEmpty && (stories.headD []).hasKey "error" then
      pyStr ((stories.headD []).item "error")
    else
      let stories := pySliceTo stories (min count (stories.length : Int))
      if stories.isEmpty then "No stories found."
      else String.intercalate "\n---\n" (stories.map techcrunch.format_tc_story)

/-- Source: `app.py`, tool `get_ainews_latest` (single-item tool, no
count parameter). -/
def get_ainews_latest (fetched : Fetched) : String :=
  if pyStartsWith fetched.text "Error" then fetched.text
  else
    let stories := ainews.parse_ainews_rss fetched.xml
    if !stories.isEmpty && (stories.headD []).hasKey "error" then
      pyStr ((stories.headD []).item "error")
    else if stories.isEmpty then "No stories found."
    else ainews.format_ainews_story (stories.headD [])

/-- Source: `app.py`, tool `get_wired_stories`. -/
def get_wired_stories (fetched : Fetched) (count : Int) : String :=
  if pyStartsWith fetched.text "Error" then fetched.text
  else
    let stories := wired.parse_wired_rss fetched.xml
    if !stories.isEmpty && (stories.headD []).hasKey "error" then
      pyStr ((stories.headD []).item "error")
    else
      let stories := pySliceTo stories (min count (stories.length : Int))
      if stories.isEmpty then "No stories found."
      else String.intercalate "\n---\n" (stories.map wired.format_wired_story)

end app

/-! Shared helper lemmas used by several of the claim theorems below. -/

/-- Python slicing with a non-negative bound is `List.take`. -/
theorem pySliceTo_natCast {α : Type} (l : List α) (n : Nat) :
    app.pySliceTo l ((n : Nat) : Int) = l.take n := by
  simp [app.pySliceTo]

/-- A non-trivial `take` of a non-empty list is non-empty. -/
theorem take_isEmpty_false {α : Type} (l : List α) (n : Nat) (h1 : n ≠ 0) (h2 : l ≠ []) :
    (l.take n).isEmpty = false := by
  rw [Bool.eq_false_iff]
  intro hb
  rw [List.isEmpty_iff, List.take_eq_nil_iff] at hb
  exact hb.elim h1 h2

/-- An article record built by the Hacker News item loop has no `error` key. -/
theorem hnItemStory_no_error (item : Element) :
    (hackernews.hnItemStory item).hasKey "error" = false := by
  simp [hackernews.hnItemStory, Story.hasKey, List.lookup]

/-- An article record built by the TechCrunch item loop has no `error` key. -/
theorem tcItemStory_no_error (item : Element) :
    (techcrunch.tcItemStory item).hasKey "error" = false := by
  simp [techcrunch.tcItemStory, Story.hasKey, List.lookup]

/-- An article record built by the WSJ item loop has no `error` key. -/
theorem wsjItemStory_no_error (item : Element) :
    (wsj.wsjItemStory item).hasKey "error" = false := by
  simp [wsj.wsjItemStory, Story.hasKey, List.lookup]

/-- An article record built by the Wired item loop has no `error` key. -/
theorem wiredItemStory_no_error (item : Element) :
    (wired.wiredItemStory item).hasKey "error" = false := by
  simp [wired.wiredItemStory, Story.hasKey, List.lookup]

/-! Claim theorems. -/

/-- Claim C1, amended.  The tools detect a fetch failure with
`rss_content.startswith("Error")` only, so exactly the sentinels beginning
with `"Error"` are returned to the caller unchanged without reaching the
parser; sentinels beginning with `"HTTP Error"` or `"Timeout"` do not
satisfy that check and are passed on to the parser (see the
counterexample). -/
theorem tool_fetch_sentinel_detection (s : String) (x : XmlInput) (count : Int)
    (h : app.pyStartsWith s "Error" = true) :
    app.get_hackernews_stories ⟨s, x⟩ count = s ∧
    app.get_wallstreetjournal_stories ⟨s, x⟩ count = s ∧
    app.get_techcrunch_stories ⟨s, x⟩ count = s ∧
    app.get_ainews_latest ⟨s, x⟩ = s ∧
    app.get_wired_stories ⟨s, x⟩ count = s := by
  refine ⟨?_, ?_, ?_, ?_, ?_⟩ <;>
    simp [app.get_hackernews_stories, app.get_wallstreetjournal_stories,
      app.get_techcrunch_stories, app.get_ainews_latest, app.get_wired_stories, h]

/-- Claim C1, counterexample.  The fetcher sentinel
`"HTTP Error fetching RSS: boom"` does not start with `"Error"`, so the
WSJ tool hands it to the parser (where expat fails at line 1, column 0)
and returns the parser's error message instead of the sentinel. -/
theorem tool_fetch_sentinel_detection_cex :
    app.get_wallstreetjournal_stories
      ⟨"HTTP Error fetching RSS: boom", XmlInput.malformed "syntax error: line 1, column 0"⟩ 30
      = "Error parsing XML: syntax error: line 1, column 0" ∧
    app.get_wallstreetjournal_stories
      ⟨"HTTP Error fetching RSS: boom", XmlInput.malformed "syntax error: line 1, column 0"⟩ 30
      ≠ "HTTP Error fetching RSS: boom" := by
  decide

/-- Claim C1 witness: a sentinel starting with `"Error"` is returned
unchanged by the Hacker News tool. -/
theorem tool_fetch_sentinel_detection_witness :
    app.get_hackernews_stories
      ⟨"Error fetching RSS: boom", XmlInput.malformed "syntax error: line 1, column 0"⟩ 30
      = "Error fetching RSS: boom" :=
  (tool_fetch_sentinel_detection "Error fetching RSS: boom"
    (XmlInput.malformed "syntax error: line 1, column 0") 30 (by decide)).1

/-- Claim C2, amended.  The TechCrunch, WSJ, Wired and AI-news formatters
return exactly `"ERROR: X"` for any record carrying an `error` field with
message `X` and render no article fields; the Hacker News formatter has no
error branch and instead renders the placeholder article fields for an
error record. -/
theorem formatter_error_record (story : Story) (X : String)
    (h : story.lookup "error" = some (Val.s X)) :
    techcrunch.format_tc_story story = "ERROR: " ++ X ∧
    wsj.format_wsj_story story = "ERROR: " ++ X ∧
    wired.format_wired_story story = "ERROR: " ++ X ∧
    ainews.format_ainews_story story = "ERROR: " ++ X ∧
    hackernews.format_hn_story [("error", Val.s X)]
      = "\nTitle: Unknown\nLink: No link\nPublished: Unknown\n" := by
  refine ⟨?_, ?_, ?_, ?_, ?_⟩
  · simp [techcrunch.format_tc_story, Story.hasKey, Story.item, h, pyStr]
  · simp [wsj.format_wsj_story, Story.hasKey, Story.item, h, pyStr]
  · simp [wired.format_wired_story, Story.hasKey, Story.item, h, pyStr]
  · simp [ainews.format_ainews_story, Story.hasKey, Story.item, h, pyStr]
  · simp [hackernews.format_hn_story, Story.getVal, List.lookup, pyStr]

/-- Claim C2, counterexample: the Hacker News formatter does not return
`"ERROR: X"` on an error record; it renders placeholder article fields. -/
theorem formatter_error_record_cex :
    hackernews.format_hn_story [("error", Val.s "X")] ≠ "ERROR: X" ∧
    hackernews.format_hn_story [("error", Val.s "X")]
      = "\nTitle: Unknown\nLink: No link\nPublished: Unknown\n" := by
  decide

/-- Claim C2 witness at the concrete record `{"error": "X"}`. -/
theorem formatter_error_record_witness :
    techcrunch.format_tc_story [("error", Val.s "X")] = "ERROR: " ++ "X" :=
  (formatter_error_record [("error", Val.s "X")] "X" (by decide)).1

/-- Claim C3 (code bug).  In every fetcher the clause
`except httpx.HTTPError` precedes `except httpx.TimeoutException`, and
`httpx.TimeoutException` is a subclass of `httpx.HTTPError`, so a timeout
is caught by the first clause and yields
`"HTTP Error fetching RSS: {str(e)}"`; the `"Timeout fetching RSS from
{url}"` branch is unreachable. -/
theorem fetch_timeout_sentinel_bug :
    hackernews.fetch_hn_rss "https://news.ycombinator.com/rss"
        (FetchOutcome.raises (HttpxExc.timeout "timed out"))
      = "HTTP Error fetching RSS: timed out" ∧
    ainews.fetch_ainews_rss "https://news.smol.ai/rss.xml"
        (FetchOutcome.raises (HttpxExc.timeout "timed out"))
      = "HTTP Error fetching RSS: timed out" ∧
    hackernews.fetch_hn_rss "https://news.ycombinator.com/rss"
        (FetchOutcome.raises (HttpxExc.timeout "timed out"))
      ≠ "Timeout fetching RSS from https://news.ycombinator.com/rss" := by
  decide

/-- Claim C4, amended.  On malformed XML the TechCrunch, WSJ, Wired and
AI-news parsers return exactly one error record whose message is
`"Error parsing XML: "` followed by the parse diagnostic; the Hacker News
parser has only a generic handler and returns `"Error parsing RSS: "`
followed by the same diagnostic. -/
theorem parser_malformed_error_message (diag : String) :
    techcrunch.parse_tc_rss (XmlInput.malformed diag)
      = [[("error", Val.s ("Error parsing XML: " ++ diag))]] ∧
    wsj.parse_wsj_rss (XmlInput.malformed diag)
      = [[("error", Val.s ("Error parsing XML: " ++ diag))]] ∧
    wired.parse_wired_rss (XmlInput.malformed diag)
      = [[("error", Val.s ("Error parsing XML: " ++ diag))]] ∧
    ainews.parse_ainews_rss (XmlInput.malformed diag)
      = [[("error", Val.s ("Error parsing XML: " ++ diag))]] ∧
    hackernews.parse_hn_rss (XmlInput.malformed diag)
      = [[("error", Val.s ("Error parsing RSS: " ++ diag))]] :=
  ⟨rfl, rfl, rfl, rfl, rfl⟩

/-- Claim C4, counterexample: the Hacker News parser's message on
malformed XML does not begin with `"Error parsing XML: "`. -/
theorem parser_malformed_error_message_cex :
    hackernews.parse_hn_rss (XmlInput.malformed "syntax error: line 1, column 0")
      = [[("error", Val.s "Error parsing RSS: syntax error: line 1, column 0")]] ∧
    app.pyStartsWith "Error parsing RSS: syntax error: line 1, column 0"
      "Error parsing XML: " = false := by
  decide

/-- The concrete HTML content of claim C5, with the trailing `...` of the
spec instantiated by a further recap-shaped list after the second `<h1>`,
so that the exclusion of content after that heading is observable. -/
def c5Input : String :=
  "<h1>AI Twitter Recap</h1><ul><li>OpenAI: released a model <a href=\"http://x\">link</a></li></ul><h1>Other</h1><ul><li>Zeta: more <a href=\"http://y\">l2</a></li></ul>"

/-- Claim C5, amended.  On the claimed input the extractor returns exactly
one item with title `"OpenAI"` and link `"http://x"`, and nothing after
the second `<h1>` contributes an item; but the description is
`"released a model link"` — `re.sub(r"<.*?>", "", ...)` removes only the
tags, keeping the anchor's inner text `"link"` — not `"released a model"`. -/
theorem twitter_recap_extraction :
    ainews.extract_twitter_recap c5Input
      = [{ title := "OpenAI", description := "released a model link", link := "http://x" }] := by
  set_option maxRecDepth 100000 in decide

/-- Claim C5, counterexample: the extraction does not return the item
claimed (with description `"released a model"`). -/
theorem twitter_recap_extraction_cex :
    ainews.extract_twitter_recap c5Input
      ≠ [{ title := "OpenAI", description := "released a model", link := "http://x" }] := by
  set_option maxRecDepth 100000 in decide

/-- Claim C6, confirmed.  For every well-formed document whose root has no
direct `channel` child, each of the three channel-requiring parsers
(TechCrunch, WSJ, Wired) returns exactly the single error record
`"Invalid RSS format: No channel element found"` and no article records. -/
theorem parser_missing_channel_error (root : Element)
    (h : ∀ c ∈ root.children, ¬ c.tag = "channel") :
    techcrunch.parse_tc_rss (XmlInput.wellFormed root)
      = [[("error", Val.s "Invalid RSS format: No channel element found")]] ∧
    wsj.parse_wsj_rss (XmlInput.wellFormed root)
      = [[("error", Val.s "Invalid RSS format: No channel element found")]] ∧
    wired.parse_wired_rss (XmlInput.wellFormed root)
      = [[("error", Val.s "Invalid RSS format: No channel element found")]] := by
  have hfind : root.findChild "channel" = none := by
    rw [Element.findChild, List.find?_eq_none]
    intro c hc
    simp [h c hc]
  exact ⟨by simp [techcrunch.parse_tc_rss, hfind],
         by simp [wsj.parse_wsj_rss, hfind],
         by simp [wired.parse_wired_rss, hfind]⟩

/-- Claim C6 witness at a root with no children at all. -/
theorem parser_missing_channel_error_witness :
    techcrunch.parse_tc_rss (XmlInput.wellFormed (Element.mk "rss" [] none []))
      = [[("error", Val.s "Invalid RSS format: No channel element found")]] :=
  (parser_missing_channel_error (Element.mk "rss" [] none [])
    (by intro c hc; simp [Element.children] at hc)).1

/-- Claim C8, confirmed.  `wsj.extract_image_url` takes the image URL from
the Media RSS `content` element if it has a `url` attribute, else from the
Media RSS `thumbnail` element, else from a plain `enclosure` child, first
match winning, and returns the empty string when none yields a URL.  Each
candidate is the `Option.bind` of the element lookup with its `url`
attribute lookup.  In particular (first conjunct, see the witness) when
both `content` and `thumbnail` carry URLs, the `content` URL is returned. -/
theorem image_url_priority (item : Element) :
    (∀ u, (item.findDesc "\x7bhttp://search.yahoo.com/mrss/\x7dcontent").bind
        (fun e => e.attrGet "url") = some u → wsj.extract_image_url item = u) ∧
    ((item.findDesc "\x7bhttp://search.yahoo.com/mrss/\x7dcontent").bind
        (fun e => e.attrGet "url") = none →
      ∀ u, (item.findDesc "\x7bhttp://search.yahoo.com/mrss/\x7dthumbnail").bind
        (fun e => e.attrGet "url") = some u → wsj.extract_image_url item = u) ∧
    ((item.findDesc "\x7bhttp://search.yahoo.com/mrss/\x7dcontent").bind
        (fun e => e.attrGet "url") = none →
      (item.findDesc "\x7bhttp://search.yahoo.com/mrss/\x7dthumbnail").bind
        (fun e => e.attrGet "url") = none →
      ∀ u, (item.findChild "enclosure").bind
        (fun e => e.attrGet "url") = some u → wsj.extract_image_url item = u) ∧
    ((item.findDesc "\x7bhttp://search.yahoo.com/mrss/\x7dcontent").bind
        (fun e => e.attrGet "url") = none →
      (item.findDesc "\x7bhttp://search.yahoo.com/mrss/\x7dthumbnail").bind
        (fun e => e.attrGet "url") = none →
      (item.findChild "enclosure").bind (fun e => e.attrGet "url") = none →
      wsj.extract_image_url item = "") := by
  refine ⟨fun u h1 => ?_, fun h1 u h2 => ?_, fun h1 h2 u h3 => ?_, fun h1 h2 h3 => ?_⟩
  · simp only [wsj.extract_image_url, h1]
  · simp only [wsj.extract_image_url, h1, h2]
  · simp only [wsj.extract_image_url, h1, h2, h3]
  · simp only [wsj.extract_image_url, h1, h2, h3]

/-- An item carrying both a Media RSS `content` and a `thumbnail` child
with different image URLs. -/
def imgItem : Element :=
  Element.mk "item" [] none
    [Element.mk "\x7bhttp://search.yahoo.com/mrss/\x7dcontent" [("url", "http://a")] none [],
     Element.mk "\x7bhttp://search.yahoo.com/mrss/\x7dthumbnail" [("url", "http://b")] none []]

/-- Claim C8 witness: on an item with both a `content` URL and a different
`thumbnail` URL, the `content` URL wins. -/
theorem image_url_priority_witness :
    wsj.extract_image_url imgItem = "http://a" ∧ ("http://a" : String) ≠ "http://b" :=
  ⟨(image_url_priority imgItem).1 "http://a"
    (by simp [imgItem, Element.findDesc, Element.descendants, Element.children, Element.tag,
      Element.attrGet, Element.attrib, descList, List.lookup]),
   by decide⟩

/-- Claim C9, confirmed.  For every input and every one of the five
parsers, a record carrying an `error` field is only ever returned as the
sole element of the result list: error records never mix with article
records. -/
theorem parser_error_record_sole (x : XmlInput) (r : Story) :
    (r ∈ hackernews.parse_hn_rss x → r.hasKey "error" = true →
       hackernews.parse_hn_rss x = [r]) ∧
    (r ∈ techcrunch.parse_tc_rss x → r.hasKey "error" = true →
       techcrunch.parse_tc_rss x = [r]) ∧
    (r ∈ wsj.parse_wsj_rss x → r.hasKey "error" = true →
       wsj.parse_wsj_rss x = [r]) ∧
    (r ∈ wired.parse_wired_rss x → r.hasKey "error" = true →
       wired.parse_wired_rss x = [r]) ∧
    (r ∈ ainews.parse_ainews_rss x → r.hasKey "error" = true →
       ainews.parse_ainews_rss x = [r]) := by
  refine ⟨fun hm he => ?_, fun hm he => ?_, fun hm he => ?_, fun hm he => ?_, fun hm he => ?_⟩
  · match x with
    | .malformed diag =>
      simp only [hackernews.parse_hn_rss] at hm ⊢
      simp at hm
      rw [hm]
    | .wellFormed root =>
      exfalso
      simp only [hackernews.parse_hn_rss] at hm
      obtain ⟨item, _, rfl⟩ := List.mem_map.mp hm
      rw [hnItemStory_no_error] at he
      exact Bool.false_ne_true he
  · match x with
    | .malformed diag =>
      simp only [techcrunch.parse_tc_rss] at hm ⊢
      simp at hm
      rw [hm]
    | .wellFormed root =>
      cases hch : root.findChild "channel" with
      | none =>
        simp only [techcrunch.parse_tc_rss, hch] at hm ⊢
        simp at hm
        rw [hm]
      | some channel =>
        exfalso
        simp only [techcrunch.parse_tc_rss, hch] at hm
        obtain ⟨item, _, rfl⟩ := List.mem_map.mp hm
        rw [tcItemStory_no_error] at he
        exact Bool.false_ne_true he
  · match x with
    | .malformed diag =>
      simp only [wsj.parse_wsj_rss] at hm ⊢
      simp at hm
      rw [hm]
    | .wellFormed root =>
      cases hch : root.findChild "channel" with
      | none =>
        simp only [wsj.parse_wsj_rss, hch] at hm ⊢
        simp at hm
        rw [hm]
      | some channel =>
        exfalso
        simp only [wsj.parse_wsj_rss, hch] at hm
        obtain ⟨item, _, rfl⟩ := List.mem_map.mp hm
        rw [wsjItemStory_no_error] at he
        exact Bool.false_ne_true he
  · match x with
    | .malformed diag =>
      simp only [wired.parse_wired_rss] at hm ⊢
      simp at hm
      rw [hm]
    | .wellFormed root =>
      cases hch : root.findChild "channel" with
      | none =>
        simp only [wired.parse_wired_rss, hch] at hm ⊢
        simp at hm
        rw [hm]
      | some channel =>
        exfalso
        simp only [wired.parse_wired_rss, hch] at hm
        obtain ⟨item, _, rfl⟩ := List.mem_map.mp hm
        rw [wiredItemStory_no_error] at he
        exact Bool.false_ne_true he
  · match x with
    | .malformed diag =>
      simp only [ainews.parse_ainews_rss] at hm ⊢
      simp at hm
      rw [hm]
    | .wellFormed root =>
      cases hitems : root.findAllDesc "item" with
      | nil =>
        rw [ainews.parse_ainews_rss, hitems] at hm
        exact absurd hm (List.not_mem_nil r)
      | cons item rest =>
        simp only [ainews.parse_ainews_rss, hitems] at hm ⊢
        simp at hm
        rw [hm]

/-- Claim C9 witness: on malformed input the Hacker News parser's error
record is the sole element of the result. -/
theorem parser_error_record_sole_witness :
    hackernews.parse_hn_rss (XmlInput.malformed "boom")
      = [[("error", Val.s "Error parsing RSS: boom")]] :=
  (parser_error_record_sole (XmlInput.malformed "boom")
    [("error", Val.s "Error parsing RSS: boom")]).1 (by decide) (by decide)

/-- Claim C7, confirmed.  For each multi-item tool, on a successfully
fetched text (one not starting with `"Error"`) whose parse yields 10
records (error-free in head position for the tools that check), the tool
with `count = 3` returns exactly the first three formatted records in
original order joined by `"\n---\n"`. -/
theorem tool_count_truncation (text : String) (x : XmlInput)
    (hs : app.pyStartsWith text "Error" = false) :
    (∀ items, hackernews.parse_hn_rss x = items → items.length = 10 →
       app.get_hackernews_stories ⟨text, x⟩ 3
         = String.intercalate "\n---\n" ((items.take 3).map hackernews.format_hn_story)) ∧
    (∀ items, techcrunch.parse_tc_rss x = items → items.length = 10 →
       (items.headD []).hasKey "error" = false →
       app.get_techcrunch_stories ⟨text, x⟩ 3
         = String.intercalate "\n---\n" ((items.take 3).map techcrunch.format_tc_story)) ∧
    (∀ items, wsj.parse_wsj_rss x = items → items.length = 10 →
       (items.headD []).hasKey "error" = false →
       app.get_wallstreetjournal_stories ⟨text, x⟩ 3
         = String.intercalate "\n---\n" ((items.take 3).map wsj.format_wsj_story)) ∧
    (∀ items, wired.parse_wired_rss x = items → items.length = 10 →
       (items.headD []).hasKey "error" = false →
       app.get_wired_stories ⟨text, x⟩ 3
         = String.intercalate "\n---\n" ((items.take 3).map wired.format_wired_story)) := by
  have key : ∀ (items : List Story), items.length = 10 →
      min (3 : Int) ((items.length : Nat) : Int) = ((3 : Nat) : Int) ∧ items ≠ [] ∧
      items.isEmpty = false := by
    intro items hlen
    have hne : items ≠ [] := by intro h; rw [h] at hlen; simp at hlen
    refine ⟨by rw [hlen]; decide, hne, ?_⟩
    rw [Bool.eq_false_iff]
    intro hb
    rw [List.isEmpty_iff] at hb
    exact hne hb
  refine ⟨fun items hp hlen => ?_, fun items hp hlen herr => ?_,
    fun items hp hlen herr => ?_, fun items hp hlen herr => ?_⟩
  · obtain ⟨hmin, hne, -⟩ := key items hlen
    simp only [app.get_hackernews_stories, hs, Bool.false_eq_true, if_false, hp, hmin,
      pySliceTo_natCast, take_isEmpty_false items 3 (by decide) hne]
  · obtain ⟨hmin, hne, hee⟩ := key items hlen
    simp only [app.get_techcrunch_stories, hs, Bool.false_eq_true, if_false, hp, herr, hee,
      Bool.not_false, Bool.and_false, hmin, pySliceTo_natCast,
      take_isEmpty_false items 3 (by decide) hne]
  · obtain ⟨hmin, hne, hee⟩ := key items hlen
    simp only [app.get_wallstreetjournal_stories, hs, Bool.false_eq_true, if_false, hp, herr,
      hee, Bool.not_false, Bool.and_false, hmin, pySliceTo_natCast,
      take_isEmpty_false items 3 (by decide) hne]
  · obtain ⟨hmin, hne, hee⟩ := key items hlen
    simp only [app.get_wired_stories, hs, Bool.false_eq_true, if_false, hp, herr, hee,
      Bool.not_false, Bool.and_false, hmin, pySliceTo_natCast,
      take_isEmpty_false items 3 (by decide) hne]

/-- A minimal feed item with only a title, for the count fixtures. -/
def titledItem (t : String) : Element :=
  Element.mk "item" [] none [Element.mk "title" [] (some t) []]

/-- A ten-item feed document (channel with ten items). -/
def docTen : Element :=
  Element.mk "rss" [] none
    [Element.mk "channel" [] none
      [titledItem "T1", titledItem "T2", titledItem "T3", titledItem "T4", titledItem "T5",
       titledItem "T6", titledItem "T7", titledItem "T8", titledItem "T9", titledItem "T10"]]

/-- Claim C7 witness on the concrete ten-item document, for the Hacker
News and TechCrunch tools. -/
theorem tool_count_truncation_witness :
    app.get_hackernews_stories ⟨"<rss>ok</rss>", XmlInput.wellFormed docTen⟩ 3
      = String.intercalate "\n---\n"
          (((hackernews.parse_hn_rss (XmlInput.wellFormed docTen)).take 3).map
            hackernews.format_hn_story) ∧
    app.get_techcrunch_stories ⟨"<rss>ok</rss>", XmlInput.wellFormed docTen⟩ 3
      = String.intercalate "\n---\n"
          (((techcrunch.parse_tc_rss (XmlInput.wellFormed docTen)).take 3).map
            techcrunch.format_tc_story) := by
  have h := tool_count_truncation "<rss>ok</rss>" (XmlInput.wellFormed docTen) (by decide)
  refine ⟨h.1 _ rfl ?_, h.2.1 _ rfl ?_ ?_⟩
  · simp [hackernews.parse_hn_rss, docTen, titledItem, Element.findAllDesc,
      Element.descendants, Element.children, Element.tag, descList]
  · simp [techcrunch.parse_tc_rss, docTen, titledItem, Element.findChild,
      Element.findAllChild, Element.children, Element.tag]
  · simp [techcrunch.parse_tc_rss, docTen, titledItem, Element.findChild,
      Element.findAllChild, Element.children, Element.tag, techcrunch.tcItemStory,
      Story.hasKey, List.lookup, techcrunch.get_element_text, Element.findDesc,
      Element.descendants, descList, Element.text, optElemTextVal, Element.attrGetD,
      Element.attrib]

/-- Claim C10, confirmed.  For each multi-item tool, on a successfully
fetched and parsed feed: with `count = 0` the tool returns exactly
`"No stories found."` (the slice `stories[:min(0, N)]` is empty, not zero
joined records), and with a negative `count` whose absolute value is below
the number of items the slice keeps the first `N - |count|` items (Python
negative slicing), which are formatted and joined. -/
theorem tool_count_zero_negative (text : String) (x : XmlInput)
    (hs : app.pyStartsWith text "Error" = false) :
    (∀ items, hackernews.parse_hn_rss x = items →
       app.get_hackernews_stories ⟨text, x⟩ 0 = "No stories found." ∧
       (∀ c : Int, c < 0 → c.natAbs < items.length →
         app.get_hackernews_stories ⟨text, x⟩ c
           = String.intercalate "\n---\n"
               ((items.take (items.length - c.natAbs)).map hackernews.format_hn_story))) ∧
    (∀ items, techcrunch.parse_tc_rss x = items →
       (items.headD []).hasKey "error" = false →
       app.get_techcrunch_stories ⟨text, x⟩ 0 = "No stories found." ∧
       (∀ c : Int, c < 0 → c.natAbs < items.length →
         app.get_techcrunch_stories ⟨text, x⟩ c
           = String.intercalate "\n---\n"
               ((items.take (items.length - c.natAbs)).map techcrunch.format_tc_story))) ∧
    (∀ items, wsj.parse_wsj_rss x = items →
       (items.headD []).hasKey "error" = false →
       app.get_wallstreetjournal_stories ⟨text, x⟩ 0 = "No stories found." ∧
       (∀ c : Int, c < 0 → c.natAbs < items.length →
         app.get_wallstreetjournal_stories ⟨text, x⟩ c
           = String.intercalate "\n---\n"
               ((items.take (items.length - c.natAbs)).map wsj.format_wsj_story))) ∧
    (∀ items, wired.parse_wired_rss x = items →
       (items.headD []).hasKey "error" = false →
       app.get_wired_stories ⟨text, x⟩ 0 = "No stories found." ∧
       (∀ c : Int, c < 0 → c.natAbs < items.length →
         app.get_wired_stories ⟨text, x⟩ c
           = String.intercalate "\n---\n"
               ((items.take (items.length - c.natAbs)).map wired.format_wired_story))) := by
  have hmin0 : ∀ (items : List Story),
      min (0 : Int) ((items.length : Nat) : Int) = ((0 : Nat) : Int) := by
    intro items
    simp [min_eq_left, Int.natCast_nonneg]
  have hminneg : ∀ (items : List Story) (c : Int), c < 0 →
      min c ((items.length : Nat) : Int) = c :=
    fun items c hc => min_eq_left (le_of_lt (lt_of_lt_of_le hc (Int.natCast_nonneg _)))
  have hslice : ∀ (items : List Story) (c : Int), c < 0 →
      app.pySliceTo items c = items.take (items.length - c.natAbs) := by
    intro items c hc
    simp [app.pySliceTo, not_le.mpr hc]
  have hne : ∀ (items : List Story) (c : Int), c.natAbs < items.length → items ≠ [] := by
    intro items c hcn h
    rw [h] at hcn
    simp at hcn
  refine ⟨fun items hp => ⟨?_, fun c hc hcn => ?_⟩,
    fun items hp herr => ⟨?_, fun c hc hcn => ?_⟩,
    fun items hp herr => ⟨?_, fun c hc hcn => ?_⟩,
    fun items hp herr => ⟨?_, fun c hc hcn => ?_⟩⟩
  · simp only [app.get_hackernews_stories, hs, Bool.false_eq_true, if_false, hp,
      hmin0 items, pySliceTo_natCast, List.take_zero, List.isEmpty_nil, if_true]
  · simp only [app.get_hackernews_stories, hs, Bool.false_eq_true, if_false, hp,
      hminneg items c hc, hslice items c hc,
      take_isEmpty_false items (items.length - c.natAbs) (by omega) (hne items c hcn)]
  · simp only [app.get_techcrunch_stories, hs, Bool.false_eq_true, if_false, hp, herr,
      Bool.and_false, hmin0 items, pySliceTo_natCast, List.take_zero, List.isEmpty_nil, if_true]
  · simp only [app.get_techcrunch_stories, hs, Bool.false_eq_true, if_false, hp, herr,
      Bool.and_false, hminneg items c hc, hslice items c hc,
      take_isEmpty_false items (items.length - c.natAbs) (by omega) (hne items c hcn)]
  · simp only [app.get_wallstreetjournal_stories, hs, Bool.false_eq_true, if_false, hp, herr,
      Bool.and_false, hmin0 items, pySliceTo_natCast, List.take_zero, List.isEmpty_nil, if_true]
  · simp only [app.get_wallstreetjournal_stories, hs, Bool.false_eq_true, if_false, hp, herr,
      Bool.and_false, hminneg items c hc, hslice items c hc,
      take_isEmpty_false items (items.length - c.natAbs) (by omega) (hne items c hcn)]
  · simp only [app.get_wired_stories, hs, Bool.false_eq_true, if_false, hp, herr,
      Bool.and_false, hmin0 items, pySliceTo_natCast, List.take_zero, List.isEmpty_nil, if_true]
  · simp only [app.get_wired_stories, hs, Bool.false_eq_true, if_false, hp, herr,
      Bool.and_false, hminneg items c hc, hslice items c hc,
      take_isEmpty_false items (items.length - c.natAbs) (by omega) (hne items c hcn)]

/-- A two-item feed document (channel with two items). -/
def docTwo : Element :=
  Element.mk "rss" [] none
    [Element.mk "channel" [] none
      [Element.mk "item" [] none [Element.mk "title" [] (some "A") []],
       Element.mk "item" [] none [Element.mk "title" [] (some "B") []]]]

/-- Claim C10 witness on a concrete two-item document: the Hacker News
tool returns `"No stories found."` for `count = 0`, and formats the first
`2 - 1` items for `count = -1`. -/
theorem tool_count_zero_negative_witness :
    app.get_hackernews_stories ⟨"<rss>ok</rss>", XmlInput.wellFormed docTwo⟩ 0
      = "No stories found." ∧
    app.get_hackernews_stories ⟨"<rss>ok</rss>", XmlInput.wellFormed docTwo⟩ (-1)
      = String.intercalate "\n---\n"
          (((hackernews.parse_hn_rss (XmlInput.wellFormed docTwo)).take
              ((hackernews.parse_hn_rss (XmlInput.wellFormed docTwo)).length
                - (-1 : Int).natAbs)).map hackernews.format_hn_story) := by
  have h := (tool_count_zero_negative "<rss>ok</rss>" (XmlInput.wellFormed docTwo)
    (by decide)).1 (hackernews.parse_hn_rss (XmlInput.wellFormed docTwo)) rfl
  refine ⟨h.1, h.2 (-1) (by decide) ?_⟩
  simp [hackernews.parse_hn_rss, docTwo, Element.findAllDesc, Element.descendants,
    Element.children, Element.tag, descList]
